import Mathlib

/-!
Verification of the soundcloud-rs user module (`src/user.rs`) and of the
pagination engine it delegates to, against the natural-language specification.

The user module is embedded from the source.  The pagination engine
(`Client::get_stream`), the `Track` record and the library `Error` type live in
files of the repository that are not among the given sources; they are modelled
from the specification and marked as such in their doc comments.
-/

namespace SoundcloudRs

/-- A JSON value, standing for `serde_json::Value`.  Numbers are modelled as
integers: no claim depends on fractional numbers. -/
inductive Json where
  | null
  | bool (b : Bool)
  | num (n : Int)
  | str (s : String)
  | arr (items : List Json)
  | obj (fields : List (String × Json))

/-- Embeds `serde_json::Value::as_array`: `Some` exactly on arrays. -/
def Json.as_array : Json → Option (List Json)
  | .arr items => some items
  | _ => none

/-- The library error type (`crate::Error`).  `apiError` mirrors the
`Error::ApiError(String)` variant used in `src/user.rs`; the remaining
variants are modelled from the spec: `error.rs` is not among the given sources,
and §7 of the spec names the kinds `TransportError`, `DecodeError` and
`MalformedEnvelope`. -/
inductive Error where
  | apiError (msg : String)
  | transport (msg : String)
  | decode (msg : String)
  | malformedEnvelope
deriving DecidableEq

/-- The `User` record of `src/user.rs`, field for field.  `usize` fields
become `Nat`. -/
structure User where
  id : Nat
  permalink : String
  username : String
  uri : String
  permalink_url : String
  avatar_url : String
  country : Option String
  full_name : Option String
  city : Option String
  description : Option String
  discogs_name : Option String
  myspace_name : Option String
  website : Option String
  website_title : Option String
  online : Option Bool
  track_count : Option Nat
  playlist_count : Option Nat
  followers_count : Option Nat
  followings_count : Option Nat
  public_favorites_count : Option Nat
deriving DecidableEq

/-- Looks up a field of a JSON object, as serde does when deserializing a
struct from a `serde_json::Map`. -/
def getField (fields : List (String × Json)) (name : String) : Option Json :=
  (fields.find? (fun p => p.1 = name)).map (fun p => p.2)

/-- Decoding of a required `usize` field (serde rejects a missing required
field, a non-number and a negative number). -/
def decodeReqNat (fields : List (String × Json)) (name : String) : Except Error Nat :=
  match getField fields name with
  | some (.num n) => if n < 0 then .error (.decode ("invalid value for " ++ name)) else .ok n.toNat
  | some _ => .error (.decode ("invalid type for " ++ name))
  | none => .error (.decode ("missing field " ++ name))

/-- Decoding of a required `String` field. -/
def decodeReqStr (fields : List (String × Json)) (name : String) : Except Error String :=
  match getField fields name with
  | some (.str s) => .ok s
  | some _ => .error (.decode ("invalid type for " ++ name))
  | none => .error (.decode ("missing field " ++ name))

/-- Decoding of an `Option<String>` field: absent or `null` is `None`, a string
is `Some`, anything else is a decode error. -/
def decodeOptStr (fields : List (String × Json)) (name : String) : Except Error (Option String) :=
  match getField fields name with
  | none => .ok none
  | some .null => .ok none
  | some (.str s) => .ok (some s)
  | some _ => .error (.decode ("invalid type for " ++ name))

/-- Decoding of an `Option<bool>` field. -/
def decodeOptBool (fields : List (String × Json)) (name : String) : Except Error (Option Bool) :=
  match getField fields name with
  | none => .ok none
  | some .null => .ok none
  | some (.bool b) => .ok (some b)
  | some _ => .error (.decode ("invalid type for " ++ name))

/-- Decoding of an `Option<usize>` field. -/
def decodeOptNat (fields : List (String × Json)) (name : String) : Except Error (Option Nat) :=
  match getField fields name with
  | none => .ok none
  | some .null => .ok none
  | some (.num n) =>
      if n < 0 then .error (.decode ("invalid value for " ++ name)) else .ok (some n.toNat)
  | some _ => .error (.decode ("invalid type for " ++ name))

/-- Embeds `serde_json::from_value::<User>`: the derived deserializer for the
`User` struct of `src/user.rs`, with the three `#[serde(rename = "...")]`
attributes (`discogs-name`, `myspace-name`, `website-title`).  Unknown fields
are tolerated, absent optional fields become `None`. -/
def decodeUser (j : Json) : Except Error User :=
  match j with
  | .obj fields => do
      let id ← decodeReqNat fields "id"
      let permalink ← decodeReqStr fields "permalink"
      let username ← decodeReqStr fields "username"
      let uri ← decodeReqStr fields "uri"
      let permalink_url ← decodeReqStr fields "permalink_url"
      let avatar_url ← decodeReqStr fields "avatar_url"
      let country ← decodeOptStr fields "country"
      let full_name ← decodeOptStr fields "full_name"
      let city ← decodeOptStr fields "city"
      let description ← decodeOptStr fields "description"
      let discogs_name ← decodeOptStr fields "discogs-name"
      let myspace_name ← decodeOptStr fields "myspace-name"
      let website ← decodeOptStr fields "website"
      let website_title ← decodeOptStr fields "website-title"
      let online ← decodeOptBool fields "online"
      let track_count ← decodeOptNat fields "track_count"
      let playlist_count ← decodeOptNat fields "playlist_count"
      let followers_count ← decodeOptNat fields "followers_count"
      let followings_count ← decodeOptNat fields "followings_count"
      let public_favorites_count ← decodeOptNat fields "public_favorites_count"
      .ok { id, permalink, username, uri, permalink_url, avatar_url, country,
            full_name, city, description, discogs_name, myspace_name, website,
            website_title, online, track_count, playlist_count, followers_count,
            followings_count, public_favorites_count }
  | _ => .error (.decode "expected an object")

/-- Outcome of running a Rust function that may return `Ok`, return `Err`, or
abort via a panic (`unwrap` on a `None`/`Err`). -/
inductive GetOutcome (α : Type) where
  | ok (val : α)
  | err (e : Error)
  | panicked
deriving DecidableEq

/-- Embeds the body of the iterator in `UserRequestBuilder::get`
(`src/user.rs:132-135`): each array element is passed to
`serde_json::from_value::<User>` followed by `.unwrap()`, so the first element
that fails to decode aborts the whole collection with a panic. -/
def collectUsersUnwrap : List Json → GetOutcome (List User)
  | [] => .ok []
  | j :: rest =>
      match decodeUser j with
      | .error _ => .panicked
      | .ok u =>
          match collectUsersUnwrap rest with
          | .ok us => .ok (u :: us)
          | .err e => .err e
          | .panicked => .panicked

/-- Embeds `UserRequestBuilder::get` (`src/user.rs:122-143`).  The two awaited
fallible steps (`client.get(...).await?` and `response.json().await?`) are
summarized by the input: `resp` is the decoded JSON body, or the error
propagated by `?`.  On an array body each element is decoded with `unwrap`;
on a non-array body the function returns
`Err(Error::ApiError("expected response to be an array"))`. -/
def usersGet (resp : Except Error Json) : GetOutcome (List User) :=
  match resp with
  | .error e => .err e
  | .ok v =>
      match v.as_array with
      | some xs => collectUsersUnwrap xs
      | none => .err (.apiError "expected response to be an array")

/-- Embeds `usize::from_str_radix(s, 10)`: succeeds on a non-empty run of
decimal digits, optionally preceded by a single `+` sign, whose value fits in
`usize` (modelled as 64-bit, so `usize::MAX = 2 ^ 64 - 1`).  An empty input, a
non-digit character (`InvalidDigit`) or a value above `usize::MAX`
(`PosOverflow`) is an error, here `none`; for base-10 digits the checked
accumulation overflows exactly when the full value exceeds `usize::MAX`, since
every prefix value is at most the full value. -/
def parseUsize10 (s : String) : Option Nat :=
  let cs : List Char :=
    match s.data with
    | '+' :: rest => rest
    | cs => cs
  if cs.isEmpty then none
  else if cs.all (fun c => c.isDigit) then
    let n := cs.foldl (fun a c => a * 10 + (c.toNat - 48)) 0
    if n < 2 ^ 64 then some n else none
  else none

/-- Modelled from the spec: the outcome of one transport call followed by
envelope decoding, for the Pagination Engine (`Client::get_stream`, whose file
is not among the given sources).  Spec §3 and §4.1: a successful fetch yields a
Page Envelope — an ordered sequence of raw item payloads plus an optional
continuation reference (an opaque token, here of type `τ`); a fetch may also
fail at the transport level or yield a structurally invalid ("malformed")
envelope. -/
inductive FetchOutcome (τ : Type) where
  | transportFail (msg : String)
  | malformedPage
  | page (items : List Json) (next : Option τ)

/-- One element of the lazy sequence produced by the Pagination Engine:
a decoded record or a terminal error (`Result<T, Error>` in the spec's
contract). -/
inductive StreamElem (T : Type) where
  | item (t : T)
  | err (e : Error)
deriving DecidableEq

/-- Modelled from the spec (§4.1, step 1): every raw item of a page is decoded
individually; on the first failure the items decoded so far are kept and a
single decode-error element is appended.  Returns the produced elements and
whether the whole page decoded cleanly. -/
def decodePage {T : Type} (decode : Json → Except Error T) :
    List Json → List (StreamElem T) × Bool
  | [] => ([], true)
  | j :: rest =>
      match decode j with
      | .error e => ([.err e], false)
      | .ok t =>
          let r := decodePage decode rest
          (.item t :: r.1, r.2)

/-- Decrements the remaining page budget by one fetched page (`None` is
unbounded and stays unbounded). -/
def capDec : Option Nat → Option Nat
  | none => none
  | some n => some (n - 1)

/-- Modelled from the spec: the Pagination Engine
(`stream(start_path, T, page_cap)`, §4.1), i.e. `Client::get_stream`, whose
file is not among the given sources.  The lazy sequence is observed through a
`fuel` bound on the number of pulls across page boundaries: `fuel = 0` is the
caller abandoning the stream (a valid terminal state, §3).  Returns the
elements produced and the number of page-fetch transport requests issued.
A cap of `some 0` issues no request; a transport failure or malformed envelope
yields exactly one error element and exhausts the stream; a clean page's items
are yielded in order and the continuation reference, if present and if the cap
is not yet reached, becomes the next target; a decode failure inside a page
yields the items decoded so far plus one decode-error element and exhausts the
stream. -/
def runEngine {τ T : Type} (server : τ → FetchOutcome τ) (decode : Json → Except Error T) :
    Nat → τ → Option Nat → List (StreamElem T) × Nat
  | 0, _, _ => ([], 0)
  | fuel + 1, target, cap =>
      if cap = some 0 then ([], 0)
      else
        match server target with
        | .transportFail msg => ([.err (.transport msg)], 1)
        | .malformedPage => ([.err .malformedEnvelope], 1)
        | .page items next =>
            let dp := decodePage decode items
            if dp.2 then
              match next with
              | none => (dp.1, 1)
              | some t' =>
                  let r := runEngine server decode fuel t' (capDec cap)
                  (dp.1 ++ r.1, 1 + r.2)
            else (dp.1, 1)

/-- The client (`crate::client::Client`, not among the given sources).
Modelled from the spec: the Transport capability (§6) is the behaviour
`server`, mapping a request target to the outcome of fetching it. -/
structure Client where
  server : String → FetchOutcome String

/-- Modelled from the spec: `Client::get_stream(url, pages)`, the entry point
of the Pagination Engine.  `T` and its decoder come from the caller's declared
item type (`Self::Model` in the source). -/
def Client.get_stream {T : Type} (decode : Json → Except Error T) (c : Client)
    (url : String) (pages : Option Nat) (fuel : Nat) : List (StreamElem T) × Nat :=
  runEngine c.server decode fuel url pages

/-- The `UserRequestBuilder` struct of `src/user.rs`: a client reference and an
optional search query. -/
structure UserRequestBuilder where
  client : Client
  query : Option String

/-- Embeds `UserRequestBuilder::new`: no set parameters. -/
def UserRequestBuilder.new (client : Client) : UserRequestBuilder :=
  { client, query := none }

/-- Embeds `UserRequestBuilder::query` (`src/user.rs:84-90`): replaces the
stored query with the given one (`self.query = query.map(...)`). -/
def UserRequestBuilder.setQuery (b : UserRequestBuilder) (q : Option String) :
    UserRequestBuilder :=
  { b with query := q }

/-- Embeds `UserRequestBuilder::request_params` (`src/user.rs:145-153`):
an empty list, plus the pair `("q", query)` when a query is set. -/
def UserRequestBuilder.request_params (b : UserRequestBuilder) : List (String × String) :=
  match b.query with
  | some q => [("q", q)]
  | none => []

/-- The `SingleUserRequestBuilder` struct of `src/user.rs`. -/
structure SingleUserRequestBuilder where
  client : Client
  id : Nat

/-- Embeds `UserRequestBuilder::permalink` (`src/user.rs:105-119`).  The
awaited `client.resolve(permalink_url).await?` is summarized by the input:
`resolved` is either the propagated error or the resolved resource URL, itself
summarized by its path segments (`None` when the URL has no path segments,
i.e. `Url::path_segments` returns `None`).  The source then calls `.unwrap()`
on the segments, `.pop().unwrap()` on the collected vector, and
`usize::from_str_radix(id, 10).unwrap()`: each failure is a panic. -/
def UserRequestBuilder.permalink (client : Client)
    (resolved : Except Error (Option (List String))) :
    GetOutcome SingleUserRequestBuilder :=
  match resolved with
  | .error e => .err e
  | .ok none => .panicked
  | .ok (some segs) =>
      match segs.getLast? with
      | none => .panicked
      | some s =>
          match parseUsize10 s with
          | none => .panicked
          | some n => .ok { client, id := n }

/-- Modelled from the spec: the `Track` resource record.  Its concrete shape
lives in `src/track.rs`, which is not among the given sources; the spec (§2)
only needs it as a plain data record distinct from `User`, so a single
identifying field suffices here. -/
structure Track where
  id : Nat
deriving DecidableEq

/-- Modelled from the spec: the record decoder for `Track` (spec §6), faithful
to the minimal `Track` model above. -/
def decodeTrack (j : Json) : Except Error Track :=
  match j with
  | .obj fields => do
      let id ← decodeReqNat fields "id"
      .ok { id }
  | _ => .error (.decode "expected an object")

/-- The resource kind an adapter's `type Model = ...` declaration names. -/
inductive ResourceKind where
  | user
  | track
deriving DecidableEq

/-- The `Likes` struct of `src/user.rs:235-238`: a client and a user id,
nothing else. -/
structure Likes where
  client : Client
  user_id : Nat

/-- Embeds `Likes::new`. -/
def Likes.new (client : Client) (user_id : Nat) : Likes :=
  { client, user_id }

/-- The `type Model = Track` declaration of `impl StreamingApi for Likes`. -/
def Likes.modelKind : ResourceKind := .track

/-- Embeds `Likes::path`: `format!("/users/{}/favorites", self.user_id)`. -/
def Likes.path (l : Likes) : String :=
  "/users/" ++ toString l.user_id ++ "/favorites"

/-- Embeds `Likes::get_stream`: `self.client.get_stream(url, pages)` with
`Self::Model = Track`. -/
def Likes.get_stream (l : Likes) (url : String) (pages : Option Nat) :
    Nat → List (StreamElem Track) × Nat :=
  Client.get_stream decodeTrack l.client url pages

/-- The `Followings` struct of `src/user.rs:260-263`. -/
structure Followings where
  client : Client
  user_id : Nat

/-- Embeds `Followings::new`. -/
def Followings.new (client : Client) (user_id : Nat) : Followings :=
  { client, user_id }

/-- The `type Model = User` declaration of `impl StreamingApi for Followings`. -/
def Followings.modelKind : ResourceKind := .user

/-- Embeds `Followings::path`: `format!("/users/{}/followings", self.user_id)`. -/
def Followings.path (f : Followings) : String :=
  "/users/" ++ toString f.user_id ++ "/followings"

/-- Embeds `Followings::get_stream`: `self.client.get_stream(url, pages)` with
`Self::Model = User`. -/
def Followings.get_stream (f : Followings) (url : String) (pages : Option Nat) :
    Nat → List (StreamElem User) × Nat :=
  Client.get_stream decodeUser f.client url pages

/-- The `Followers` struct of `src/user.rs:285-288`. -/
structure Followers where
  client : Client
  user_id : Nat

/-- Embeds `Followers::new`. -/
def Followers.new (client : Client) (user_id : Nat) : Followers :=
  { client, user_id }

/-- The `type Model = User` declaration of `impl StreamingApi for Followers`. -/
def Followers.modelKind : ResourceKind := .user

/-- Embeds `Followers::path`: `format!("/users/{}/followers", self.user_id)`. -/
def Followers.path (f : Followers) : String :=
  "/users/" ++ toString f.user_id ++ "/followers"

/-- Embeds `Followers::get_stream`: `self.client.get_stream(url, pages)` with
`Self::Model = User`. -/
def Followers.get_stream (f : Followers) (url : String) (pages : Option Nat) :
    Nat → List (StreamElem User) × Nat :=
  Client.get_stream decodeUser f.client url pages

/-- A server behaviour serving a fixed finite chain of clean pages, addressed
by index: page `i` carries `pages[i]` and a continuation reference to `i + 1`
exactly when a further page exists; out-of-range targets serve a final empty
page. -/
def chainServer (pages : List (List Json)) (i : Nat) : FetchOutcome Nat :=
  match pages.get? i with
  | some items => .page items (if i + 1 < pages.length then some (i + 1) else none)
  | none => .page [] none

/-- A server behaviour that always answers with an empty clean page and a
continuation reference: the unbounded-pagination adversary. -/
def alwaysCont : Unit → FetchOutcome Unit :=
  fun _ => .page [] (some ())

/-- A trivial decoder for runs whose items are irrelevant. -/
def decodeUnit (_j : Json) : Except Error Unit := .ok ()

/-- A concrete JSON object carrying exactly the required `User` fields, for
evaluating the embedding on closed inputs. -/
def userJson (n : Nat) : Json :=
  .obj [("id", .num n), ("permalink", .str "p"), ("username", .str "u"),
        ("uri", .str "uri"), ("permalink_url", .str "purl"),
        ("avatar_url", .str "aurl")]

/-- The `User` value `userJson n` decodes to. -/
def userVal (n : Nat) : User :=
  { id := n, permalink := "p", username := "u", uri := "uri",
    permalink_url := "purl", avatar_url := "aurl", country := none,
    full_name := none, city := none, description := none, discogs_name := none,
    myspace_name := none, website := none, website_title := none, online := none,
    track_count := none, playlist_count := none, followers_count := none,
    followings_count := none, public_favorites_count := none }

/-- The decoded value of a JSON payload known to decode as a `User`, with an
arbitrary default elsewhere; lets concrete inputs name their decoded records. -/
def pickUser (j : Json) : User :=
  ((decodeUser j).toOption).getD (userVal 0)

/-- A concrete client whose transport behaviour is irrelevant to the statement
using it. -/
def anyClient : Client :=
  { server := fun _ => FetchOutcome.malformedPage }

/-! ## Helper lemmas about the Pagination Engine -/

/-- A page whose items all decode cleanly produces exactly its items, in
order. -/
theorem decodePage_map_ok {T : Type} (decode : Json → Except Error T) (f : Json → T) :
    ∀ l : List Json, (∀ j ∈ l, decode j = .ok (f j)) →
      decodePage decode l = (l.map (fun j => StreamElem.item (f j)), true) := by
  intro l
  induction l with
  | nil => intro _; rfl
  | cons j rest ih =>
      intro h
      have hj : decode j = .ok (f j) := h j (by simp)
      have hr := ih (fun x hx => h x (by simp [hx]))
      simp [decodePage, hj, hr]

/-- A cap of zero produces nothing and issues no request, whatever the server,
the decoder, the target and the fuel. -/
theorem runEngine_cap_zero {τ T : Type} (server : τ → FetchOutcome τ)
    (decode : Json → Except Error T) (fuel : Nat) (target : τ) :
    runEngine server decode fuel target (some 0) = ([], 0) := by
  cases fuel with
  | zero => rfl
  | succ n => simp [runEngine]

/-- The engine never issues more requests than the configured page cap. -/
theorem runEngine_requests_le_cap {τ T : Type} (server : τ → FetchOutcome τ)
    (decode : Json → Except Error T) :
    ∀ (fuel : Nat) (target : τ) (c : Nat),
      (runEngine server decode fuel target (some c)).2 ≤ c := by
  intro fuel
  induction fuel with
  | zero => intro t c; simp [runEngine]
  | succ n ih =>
      intro t c
      rcases Nat.eq_zero_or_pos c with hc | hc
      · subst hc
        simp [runEngine]
      · have hne : (some c = some (0 : Nat)) = False := by simp; omega
        rw [runEngine]
        simp only [hne, if_false]
        cases hsrv : server t with
        | transportFail msg => simpa using hc
        | malformedPage => simpa using hc
        | page items next =>
            cases hdp : (decodePage decode items).2 with
            | false => simp [hdp]; omega
            | true =>
                cases next with
                | none => simp [hdp]; omega
                | some t2 =>
                    have hrec := ih t2 (c - 1)
                    simp only [hdp, capDec, if_true]
                    omega

/-- Against a server that always supplies a continuation reference and with no
cap, the engine issues exactly one request per unit of fuel: no a-priori bound
on the number of requests exists. -/
theorem alwaysCont_requests :
    ∀ n : Nat, (runEngine alwaysCont decodeUnit n () none).2 = n := by
  intro n
  induction n with
  | zero => rfl
  | succ k ih =>
      rw [runEngine]
      simp only [alwaysCont, decodePage, capDec]
      simp [ih]
      omega

/-- Against the always-continuing server, a cap of `c` with enough fuel issues
exactly `c` requests: the continuation reference present when the cap is
reached is discarded, not followed. -/
theorem alwaysCont_capped_requests :
    ∀ (c fuel : Nat), c ≤ fuel →
      (runEngine alwaysCont decodeUnit fuel () (some c)).2 = c := by
  intro c
  induction c with
  | zero => intro fuel _; rw [runEngine_cap_zero]
  | succ k ih =>
      intro fuel hle
      cases fuel with
      | zero => omega
      | succ m =>
          rw [runEngine]
          have hne : (some (k + 1) = some (0 : Nat)) = False := by simp
          simp only [hne, if_false, alwaysCont, decodePage, capDec]
          have := ih m (by omega)
          simp [this]
          omega

/-- Running the engine over a finite chain of clean pages from position `i`,
with enough fuel, yields exactly the remaining pages' items in order and issues
one request per remaining page. -/
theorem chainServer_run {T : Type} (decode : Json → Except Error T) (f : Json → T)
    (pages : List (List Json)) (hall : ∀ j ∈ pages.flatten, decode j = .ok (f j)) :
    ∀ (fuel i : Nat), i < pages.length → pages.length - i ≤ fuel →
      runEngine (chainServer pages) decode fuel i none
        = (((pages.drop i).flatten).map (fun j => StreamElem.item (f j)),
           pages.length - i) := by
  intro fuel
  induction fuel with
  | zero => intro i hi hle; omega
  | succ n ih =>
      intro i hi hle
      have hget : pages.get? i = some (pages.get ⟨i, hi⟩) := List.get?_eq_get hi
      have hmem : ∀ j ∈ pages.get ⟨i, hi⟩, decode j = .ok (f j) := by
        intro j hj
        exact hall j (List.mem_flatten.mpr ⟨pages.get ⟨i, hi⟩, List.get_mem pages i hi, hj⟩)
      have hdp := decodePage_map_ok decode f (pages.get ⟨i, hi⟩) hmem
      have hdrop : pages.drop i = pages.get ⟨i, hi⟩ :: pages.drop (i + 1) :=
        List.drop_eq_getElem_cons hi
      rw [runEngine]
      simp only [chainServer, hget]
      by_cases hnext : i + 1 < pages.length
      · have hrec := ih (i + 1) hnext (by omega)
        have harith : 1 + (pages.length - (i + 1)) = pages.length - i := by omega
        have hflat : (List.drop i pages).flatten
            = pages.get ⟨i, hi⟩ ++ (List.drop (i + 1) pages).flatten := by
          rw [hdrop, List.flatten_cons]
        simp only [if_pos hnext, hdp, hrec, capDec]
        rw [hflat]
        simp only [List.map_append]
        rw [harith]
        simp
      · have hdropnil : pages.drop (i + 1) = [] := List.drop_eq_nil_of_le (by omega)
        have harith : pages.length - i = 1 := by omega
        have hflat : (List.drop i pages).flatten = pages.get ⟨i, hi⟩ := by
          rw [hdrop, hdropnil, List.flatten_cons, List.flatten_nil, List.append_nil]
        simp only [if_neg hnext, hdp]
        rw [hflat, harith]
        simp

/-! ## Helper lemmas about `UserRequestBuilder::get` -/

/-- When every array element decodes, the unwrap-collecting loop returns all
decoded users, in order. -/
theorem collectUsersUnwrap_map_ok (g : Json → User) :
    ∀ xs : List Json, (∀ j ∈ xs, decodeUser j = .ok (g j)) →
      collectUsersUnwrap xs = .ok (xs.map g) := by
  intro xs
  induction xs with
  | nil => intro _; rfl
  | cons j rest ih =>
      intro h
      have hj : decodeUser j = .ok (g j) := h j (by simp)
      have hr := ih (fun x hx => h x (by simp [hx]))
      simp [collectUsersUnwrap, hj, hr]

/-- When some array element fails to decode, the unwrap-collecting loop
panics. -/
theorem collectUsersUnwrap_panics :
    ∀ xs : List Json, (∃ j ∈ xs, ∃ e, decodeUser j = .error e) →
      collectUsersUnwrap xs = .panicked := by
  intro xs
  induction xs with
  | nil => rintro ⟨j, hj, _⟩; simp at hj
  | cons j rest ih =>
      rintro ⟨x, hx, e, he⟩
      rcases List.mem_cons.mp hx with hxj | hxr
      · subst hxj
        simp [collectUsersUnwrap, he]
      · cases hj : decodeUser j with
        | error e2 => simp [collectUsersUnwrap, hj]
        | ok u =>
            have hr := ih ⟨x, hxr, e, he⟩
            simp [collectUsersUnwrap, hj, hr]

/-! ## Claims -/

/-- C1: for a server returning `k` pages with `n_i` items each and no errors,
the engine's sequence is exactly the pages' items in page order, item order
preserved within each page, with `Σ n_i` successful elements and no error
element at the end; analogously, `UserRequestBuilder::get` on an array response
whose elements all decode returns one `User` per array element, in the array's
order. -/
theorem claim_C1 :
    (∀ (T : Type) (decode : Json → Except Error T) (f : Json → T)
       (pages : List (List Json)),
       (∀ j ∈ pages.flatten, decode j = .ok (f j)) →
       runEngine (chainServer pages) decode pages.length 0 none
           = ((pages.flatten).map (fun j => StreamElem.item (f j)), pages.length)
         ∧ (runEngine (chainServer pages) decode pages.length 0 none).1.length
           = (pages.map List.length).sum)
    ∧ (∀ (xs : List Json) (g : Json → User),
       (∀ j ∈ xs, decodeUser j = .ok (g j)) →
       usersGet (.ok (.arr xs)) = .ok (xs.map g)) := by
  constructor
  · intro T decode f pages hall
    have key : runEngine (chainServer pages) decode pages.length 0 none
        = ((pages.flatten).map (fun j => StreamElem.item (f j)), pages.length) := by
      cases pages with
      | nil => rfl
      | cons p rest =>
          have h := chainServer_run decode f (p :: rest) hall (p :: rest).length 0
            (by simp) (by omega)
          simpa using h
    refine ⟨key, ?_⟩
    rw [key]
    simp [List.length_flatten, Function.comp_def]
  · intro xs g h
    simp [usersGet, Json.as_array, collectUsersUnwrap_map_ok g xs h]

/-- C1 witness: two pages with two and one user record, no errors: the
sequence is the three decoded records in order and two requests are issued;
and `get` on a one-element array body returns that one decoded user. -/
theorem claim_C1_witness :
    runEngine (chainServer [[userJson 1, userJson 2], [userJson 3]]) decodeUser 2 0 none
        = ([.item (pickUser (userJson 1)), .item (pickUser (userJson 2)),
            .item (pickUser (userJson 3))], 2)
      ∧ usersGet (.ok (.arr [userJson 5])) = .ok [pickUser (userJson 5)] := by
  have h1 := (claim_C1.1 User decodeUser pickUser [[userJson 1, userJson 2], [userJson 3]]
    (by intro j hj; fin_cases hj <;> rfl)).1
  have h2 := claim_C1.2 [userJson 5] pickUser (by intro j hj; fin_cases hj; rfl)
  exact ⟨h1, h2⟩

/-- C2: the number of page-fetch requests never exceeds the configured cap, for
every server behaviour, decoder, fuel and target; with no cap the request count
is unbounded (one request per page pulled from the always-continuing server);
and when the cap is reached while a continuation reference exists, the
reference is discarded: against the always-continuing server a cap of `c`
issues exactly `c` requests however much more the caller pulls. -/
theorem claim_C2 :
    (∀ (τ T : Type) (server : τ → FetchOutcome τ) (decode : Json → Except Error T)
       (fuel : Nat) (target : τ) (c : Nat),
       (runEngine server decode fuel target (some c)).2 ≤ c)
    ∧ (∀ n : Nat, (runEngine alwaysCont decodeUnit n () none).2 = n)
    ∧ (∀ c fuel : Nat, c ≤ fuel →
       (runEngine alwaysCont decodeUnit fuel () (some c)).2 = c) :=
  ⟨fun _ _ server decode fuel target c => runEngine_requests_le_cap server decode fuel target c,
   alwaysCont_requests,
   fun c fuel h => alwaysCont_capped_requests c fuel h⟩

/-- C2 witness: with cap 3 and fuel 5 against the always-continuing server at
most 3 requests are issued, with no cap and fuel 4 exactly 4 are issued, and
with cap 3 and fuel 5 exactly 3 are issued. -/
theorem claim_C2_witness :
    (runEngine alwaysCont decodeUnit 5 () (some 3)).2 ≤ 3
      ∧ (runEngine alwaysCont decodeUnit 4 () none).2 = 4
      ∧ 3 ≤ 5
      ∧ (runEngine alwaysCont decodeUnit 5 () (some 3)).2 = 3 :=
  ⟨claim_C2.1 Unit Unit alwaysCont decodeUnit 5 () 3,
   claim_C2.2.1 4,
   by decide,
   claim_C2.2.2 3 5 (by decide)⟩

/-- C3: a page cap of 0 yields the empty sequence (no items, no error
elements) and issues zero transport requests, for every starting target, server
behaviour, decoder and fuel; a cap of `None` leaves the page count unbounded:
no `n` bounds the number of requests of every uncapped run. -/
theorem claim_C3 :
    (∀ (τ T : Type) (server : τ → FetchOutcome τ) (decode : Json → Except Error T)
       (fuel : Nat) (target : τ),
       runEngine server decode fuel target (some 0) = ([], 0))
    ∧ (∀ n : Nat, ∃ fuel : Nat,
       (runEngine alwaysCont decodeUnit fuel () none).2 > n) :=
  ⟨fun _ _ server decode fuel target => runEngine_cap_zero server decode fuel target,
   fun n => ⟨n + 1, by rw [alwaysCont_requests]; omega⟩⟩

/-- C4 counterexample: on the array body `[null]` the element fails to decode
as a `User`, and `UserRequestBuilder::get` panics (the `.unwrap()` at
`src/user.rs:134`) instead of returning a decode error result. -/
theorem claim_C4_counterexample :
    usersGet (.ok (.arr [Json.null])) = .panicked := by
  rfl

/-- C4 amended: on an array body containing an element that fails to decode as
a `User`, `UserRequestBuilder::get` aborts with a panic (it unwraps each
per-item decode result), rather than surfacing the failure as an error
result. -/
theorem claim_C4_amended :
    ∀ xs : List Json, (∃ j ∈ xs, ∃ e, decodeUser j = .error e) →
      usersGet (.ok (.arr xs)) = .panicked := by
  intro xs h
  simp [usersGet, Json.as_array, collectUsersUnwrap_panics xs h]

/-- C4 witness: an array whose first element decodes and whose second does not
makes `get` panic. -/
theorem claim_C4_witness :
    usersGet (.ok (.arr [userJson 1, Json.null])) = .panicked :=
  claim_C4_amended [userJson 1, Json.null]
    ⟨Json.null, by simp, Error.decode "expected an object", rfl⟩

/-- C5 counterexample: when the resolved resource URL's final path segment is
not a decimal integer, `UserRequestBuilder::permalink` panics (the `.unwrap()`
at `src/user.rs:114`) instead of returning an error result. -/
theorem claim_C5_counterexample :
    UserRequestBuilder.permalink anyClient (.ok (some ["abc"])) = .panicked := by
  rfl

/-- C5 amended: `UserRequestBuilder::permalink` propagates a resolution error
as an error result, and returns a builder carrying the parsed id when the
final path segment is a decimal integer that fits in `usize`; but when the
resolved URL has no path segments, or has an empty segment list, or its final
segment is not a decimal integer, or the integer overflows `usize`
(`PosOverflow`), it panics — the parse failure is not converted into an error
result. -/
theorem claim_C5_amended :
    (∀ (c : Client) (e : Error),
       UserRequestBuilder.permalink c (.error e) = .err e)
    ∧ (∀ c : Client, UserRequestBuilder.permalink c (.ok none) = .panicked)
    ∧ (∀ c : Client, UserRequestBuilder.permalink c (.ok (some [])) = .panicked)
    ∧ (∀ (c : Client) (segs : List String) (s : String),
       segs.getLast? = some s → parseUsize10 s = none →
       UserRequestBuilder.permalink c (.ok (some segs)) = .panicked)
    ∧ (∀ (c : Client) (segs : List String) (s : String) (n : Nat),
       segs.getLast? = some s → parseUsize10 s = some n →
       UserRequestBuilder.permalink c (.ok (some segs)) = .ok { client := c, id := n }) := by
  refine ⟨fun c e => rfl, fun c => rfl, fun c => rfl, ?_, ?_⟩
  · intro c segs s hlast hparse
    simp [UserRequestBuilder.permalink, hlast, hparse]
  · intro c segs s n hlast hparse
    simp [UserRequestBuilder.permalink, hlast, hparse]

/-- C5 witness: a resolved URL with segments `["users", "17"]` yields the
builder for id 17; one with final segment `"abc"` panics; and one whose final
segment is a decimal run whose value exceeds `usize::MAX` (26 nines) panics
too, through the `PosOverflow` error being unwrapped. -/
theorem claim_C5_witness :
    (["users", "17"].getLast? = some "17" ∧ parseUsize10 "17" = some 17
      ∧ UserRequestBuilder.permalink anyClient (.ok (some ["users", "17"]))
          = .ok { client := anyClient, id := 17 })
    ∧ (["x", "abc"].getLast? = some "abc" ∧ parseUsize10 "abc" = none
      ∧ UserRequestBuilder.permalink anyClient (.ok (some ["x", "abc"])) = .panicked)
    ∧ (["u", "99999999999999999999999999"].getLast? = some "99999999999999999999999999"
      ∧ parseUsize10 "99999999999999999999999999" = none
      ∧ UserRequestBuilder.permalink anyClient
          (.ok (some ["u", "99999999999999999999999999"])) = .panicked) :=
  ⟨⟨rfl, by decide, claim_C5_amended.2.2.2.2 anyClient ["users", "17"] "17" 17 rfl (by decide)⟩,
   ⟨rfl, by decide, claim_C5_amended.2.2.2.1 anyClient ["x", "abc"] "abc" rfl (by decide)⟩,
   ⟨rfl, by decide, claim_C5_amended.2.2.2.1 anyClient ["u", "99999999999999999999999999"]
      "99999999999999999999999999" rfl (by decide)⟩⟩

/-- C6: a response body that is valid JSON but not an array makes
`UserRequestBuilder::get` return `Err(Error::ApiError("expected response to be
an array"))` — no users, no panic; and in the engine a malformed page envelope
produces exactly one error element and exhausts the stream (one request, no
continuation followed), whenever a request is permitted at all. -/
theorem claim_C6 :
    (∀ j : Json, j.as_array = none →
       usersGet (.ok j) = .err (.apiError "expected response to be an array"))
    ∧ (∀ (τ T : Type) (server : τ → FetchOutcome τ) (decode : Json → Except Error T)
       (target : τ) (fuel : Nat) (cap : Option Nat),
       server target = .malformedPage → cap ≠ some 0 →
       runEngine server decode (fuel + 1) target cap
         = ([.err .malformedEnvelope], 1)) := by
  constructor
  · intro j h
    simp [usersGet, h]
  · intro τ T server decode target fuel cap hsrv hcap
    rw [runEngine]
    simp [hsrv, hcap]

/-- C6 witness: a JSON object body yields the array-shape `ApiError`, and a
server answering with a malformed page yields exactly one
`malformedEnvelope` element in one request. -/
theorem claim_C6_witness :
    usersGet (.ok (.obj [])) = .err (.apiError "expected response to be an array")
      ∧ runEngine (fun _ : Unit => FetchOutcome.malformedPage (τ := Unit)) decodeUnit 1 () none
          = ([.err .malformedEnvelope], 1) :=
  ⟨claim_C6.1 (.obj []) rfl,
   claim_C6.2 Unit Unit (fun _ => FetchOutcome.malformedPage) decodeUnit () 0 none rfl
     (by decide)⟩

/-- C7: each collection adapter delegates iteration entirely to the engine:
its `get_stream` forwards `url` and `pages` unchanged to `Client::get_stream`
(with its declared model's decoder); its constructor stores exactly the client
and the user id; and an adapter value is nothing but those two fields — it owns
no pagination state, and nothing about it is mutated by using the stream. -/
theorem claim_C7 :
    (∀ (l : Likes) (url : String) (pages : Option Nat),
       l.get_stream url pages = Client.get_stream decodeTrack l.client url pages)
    ∧ (∀ (f : Followings) (url : String) (pages : Option Nat),
       f.get_stream url pages = Client.get_stream decodeUser f.client url pages)
    ∧ (∀ (f : Followers) (url : String) (pages : Option Nat),
       f.get_stream url pages = Client.get_stream decodeUser f.client url pages)
    ∧ (∀ (c : Client) (n : Nat),
       Likes.new c n = { client := c, user_id := n }
         ∧ Followings.new c n = { client := c, user_id := n }
         ∧ Followers.new c n = { client := c, user_id := n })
    ∧ (∀ l : Likes, l = { client := l.client, user_id := l.user_id })
    ∧ (∀ f : Followings, f = { client := f.client, user_id := f.user_id })
    ∧ (∀ f : Followers, f = { client := f.client, user_id := f.user_id }) :=
  ⟨fun _ _ _ => rfl, fun _ _ _ => rfl, fun _ _ _ => rfl,
   fun _ _ => ⟨rfl, rfl, rfl⟩, fun _ => rfl, fun _ => rfl, fun _ => rfl⟩

/-- C8: the `Followers` adapter for user id `n` declares item type `User` and
supplies starting path `/users/n/followers` (for id 42 exactly
`"/users/42/followers"`), and the `Followings` adapter for `n` declares item
type `User` and supplies `/users/n/followings`. -/
theorem claim_C8 :
    (∀ (c : Client) (n : Nat),
       (Followers.new c n).path = "/users/" ++ toString n ++ "/followers")
    ∧ (Followers.new anyClient 42).path = "/users/42/followers"
    ∧ Followers.modelKind = ResourceKind.user
    ∧ (∀ (c : Client) (n : Nat),
       (Followings.new c n).path = "/users/" ++ toString n ++ "/followings")
    ∧ Followings.modelKind = ResourceKind.user :=
  ⟨fun _ _ => rfl, by decide, rfl, fun _ _ => rfl, rfl⟩

/-- C9: `request_params` is empty for a fresh builder and after the query is
cleared, and is exactly `[("q", q)]` after the query is set to `q`; setting the
query twice keeps only the later value; and the parameter list is empty exactly
when no query is stored — so the `/users` request carries a `q` parameter if
and only if a query was set. -/
theorem claim_C9 :
    (∀ c : Client, (UserRequestBuilder.new c).request_params = [])
    ∧ (∀ (b : UserRequestBuilder) (q : String),
       (b.setQuery (some q)).request_params = [("q", q)])
    ∧ (∀ b : UserRequestBuilder, (b.setQuery none).request_params = [])
    ∧ (∀ (b : UserRequestBuilder) (q1 q2 : Option String),
       (b.setQuery q1).setQuery q2 = b.setQuery q2)
    ∧ (∀ b : UserRequestBuilder, b.request_params = [] ↔ b.query = none) := by
  refine ⟨fun _ => rfl, fun _ _ => rfl, fun _ => rfl, fun _ _ _ => rfl, ?_⟩
  intro b
  cases hq : b.query <;> simp [UserRequestBuilder.request_params, hq]

/-- C10: the `Likes` adapter for user id `n` declares item type `Track` — not
`User` — and its starting path is `/users/n/favorites`: the likes collection is
served by the favorites endpoint. -/
theorem claim_C10 :
    (∀ (c : Client) (n : Nat),
       (Likes.new c n).path = "/users/" ++ toString n ++ "/favorites")
    ∧ (Likes.new anyClient 7).path = "/users/7/favorites"
    ∧ Likes.modelKind = ResourceKind.track
    ∧ Likes.modelKind ≠ ResourceKind.user :=
  ⟨fun _ _ => rfl, by decide, rfl, by decide⟩

end SoundcloudRs
